import Mathlib

/-!
Verification of the core of the Telegram channel monitor against its
natural-language specification.

The development shallowly embeds the Python sources:
  * `search_engine.py` — pattern matcher (`SearchPattern`, `MatchResult`,
    `SearchEngine.search` / `_match_pattern`);
  * `scheduler.py` — schedule gate (`ScheduleManager.is_within_schedule`)
    and supervisor (`AutoRestartManager.run_with_restart`);
  * `database.py` — detected-message store operations;
  * `monitor.py` — detection pipeline (`_is_monitored_channel`,
    `_process_message`, `_handle_match`, `reload_config`);
  * `notifications.py` — notification fan-out (`NotificationManager.notify`).

Python strings are modelled as `List Char`; `str.lower()` as a
character-wise `Char.toLower` map; truthiness of optional strings/lists as
non-`none` and non-empty.  The regex engine is kept abstract: a compiled
regex is modelled as a Lean function `List Char → Option PyReMatch`
(the result of `re.Pattern.search`), and `re.compile` as a caller-supplied
function that may fail (return `none`), exactly mirroring how
`SearchPattern.__post_init__` stores `None` on `re.error`.
-/

set_option autoImplicit false

/-- `MatchType` enum from `search_engine.py`. -/
inductive MatchType where
  | EXACT
  | CONTAINS
  | STARTS_WITH
  | ENDS_WITH
  | REGEX
  | CASE_SENSITIVE
deriving DecidableEq, Repr

/-- Result of `re.Pattern.search`: `(match.group(), match.span())`. -/
structure PyReMatch where
  group : List Char
  spanStart : Nat
  spanEnd : Nat
deriving DecidableEq, Repr

/-- A compiled regex, abstractly: what `compiled_regex.search` computes. -/
abbrev PyRegex := List Char → Option PyReMatch

/-- `re.compile`: may fail (`None` stored on `re.error`).  Supplied as a
parameter because the regex engine itself is outside the embedded core. -/
abbrev PyReCompile := List Char → Bool → Option PyRegex

/-- A compile function for which every expression is invalid (used to
exercise the invalid-regex path). -/
def compileNone : PyReCompile := fun _ _ => none

/-- `SearchPattern` dataclass from `search_engine.py`. -/
structure SearchPattern where
  pattern : List Char
  match_type : MatchType
  case_sensitive : Bool
  compiled_regex : Option PyRegex

/-- `SearchPattern.__post_init__`: compile the regex when the match type is
`REGEX`; on a compile failure `compiled_regex` is `None`.  For non-regex
patterns `compiled_regex` keeps its default `None`. -/
def mkSearchPattern (re_compile : PyReCompile) (pattern : List Char)
    (match_type : MatchType) (case_sensitive : Bool) : SearchPattern :=
  { pattern := pattern
    match_type := match_type
    case_sensitive := case_sensitive
    compiled_regex :=
      if match_type = MatchType.REGEX then re_compile pattern case_sensitive
      else none }

/-- `MatchResult` dataclass from `search_engine.py`. -/
structure MatchResult where
  matched : Bool
  pattern : List Char
  match_type : MatchType
  matched_text : Option (List Char)
  position : Option (Nat × Nat)
deriving DecidableEq, Repr

/-- Character-wise model of Python `str.lower()`. -/
def pyLower (s : List Char) : List Char := s.map Char.toLower

/-- List-prefix test (model of Python `str.startswith`). -/
def isPrefixL : List Char → List Char → Bool
  | [], _ => true
  | _ :: _, [] => false
  | a :: as, b :: bs => a = b && isPrefixL as bs

/-- List-suffix test (model of Python `str.endswith`). -/
def isSuffixL (p s : List Char) : Bool := isPrefixL p.reverse s.reverse

/-- Model of Python `str.find`: index of the first occurrence of `needle`
in `hay`, `none` standing for `-1`.  `hay.find("") = 0` in Python, matched
by `isPrefixL [] hay = true`. -/
def findSub (hay needle : List Char) : Option Nat :=
  if isPrefixL needle hay then some 0
  else
    match hay with
    | [] => none
    | _ :: t => (findSub t needle).map (· + 1)

/-- Model of the Python slice `text[-k:]` as used in the `ENDS_WITH`
branch: for `k = 0` Python's `text[-0:]` is the whole string. -/
def pyTailSlice (text : List Char) (k : Nat) : List Char :=
  if k = 0 then text else text.drop (text.length - k)

/-- `SearchEngine._match_pattern` from `search_engine.py`. -/
def matchPattern (text : List Char) (p : SearchPattern) : MatchResult :=
  let search_text := if p.case_sensitive then text else pyLower text
  let search_pattern := if p.case_sensitive then p.pattern else pyLower p.pattern
  match p.match_type with
  | MatchType.REGEX =>
    match p.compiled_regex with
    | some rx =>
      match rx text with
      | some m =>
        { matched := true, pattern := p.pattern, match_type := p.match_type
          matched_text := some m.group, position := some (m.spanStart, m.spanEnd) }
      | none =>
        { matched := false, pattern := p.pattern, match_type := p.match_type
          matched_text := none, position := none }
    | none =>
      { matched := false, pattern := p.pattern, match_type := p.match_type
        matched_text := none, position := none }
  | MatchType.EXACT =>
    if search_text = search_pattern then
      { matched := true, pattern := p.pattern, match_type := p.match_type
        matched_text := some text, position := some (0, text.length) }
    else
      { matched := false, pattern := p.pattern, match_type := p.match_type
        matched_text := none, position := none }
  | MatchType.CONTAINS =>
    match findSub search_text search_pattern with
    | some idx =>
      { matched := true, pattern := p.pattern, match_type := p.match_type
        matched_text := some ((text.drop idx).take p.pattern.length)
        position := some (idx, idx + p.pattern.length) }
    | none =>
      { matched := false, pattern := p.pattern, match_type := p.match_type
        matched_text := none, position := none }
  | MatchType.STARTS_WITH =>
    if isPrefixL search_pattern search_text then
      { matched := true, pattern := p.pattern, match_type := p.match_type
        matched_text := some (text.take p.pattern.length)
        position := some (0, p.pattern.length) }
    else
      { matched := false, pattern := p.pattern, match_type := p.match_type
        matched_text := none, position := none }
  | MatchType.ENDS_WITH =>
    if isSuffixL search_pattern search_text then
      { matched := true, pattern := p.pattern, match_type := p.match_type
        matched_text := some (pyTailSlice text p.pattern.length)
        position := some (text.length - p.pattern.length, text.length) }
    else
      { matched := false, pattern := p.pattern, match_type := p.match_type
        matched_text := none, position := none }
  | MatchType.CASE_SENSITIVE =>
    { matched := false, pattern := p.pattern, match_type := p.match_type
      matched_text := none, position := none }

/-- `SearchEngine.search`: empty text short-circuits to `[]`; otherwise
every pattern is evaluated and the matched results collected in order. -/
def search (patterns : List SearchPattern) (text : List Char) : List MatchResult :=
  if text = [] then []
  else (patterns.map (matchPattern text)).filter (·.matched)

/-- `SearchEngine.add_pattern`: appends a freshly constructed pattern. -/
def add_pattern (re_compile : PyReCompile) (patterns : List SearchPattern)
    (pattern : List Char) (match_type : MatchType) (case_sensitive : Bool) :
    List SearchPattern :=
  patterns ++ [mkSearchPattern re_compile pattern match_type case_sensitive]

/-- `SearchEngine.add_regex`. -/
def add_regex (re_compile : PyReCompile) (patterns : List SearchPattern)
    (pattern : List Char) (case_sensitive : Bool) : List SearchPattern :=
  add_pattern re_compile patterns pattern MatchType.REGEX case_sensitive

/-- `SearchEngine.add_keyword`. -/
def add_keyword (re_compile : PyReCompile) (patterns : List SearchPattern)
    (keyword : List Char) (case_sensitive : Bool) : List SearchPattern :=
  add_pattern re_compile patterns keyword MatchType.CONTAINS case_sensitive

/-- A matched result of a registered pattern appears in `search`'s output
(for non-empty text). -/
theorem mem_search_of_matched {patterns : List SearchPattern} {p : SearchPattern}
    {text : List Char} (hmem : p ∈ patterns) (ht : text ≠ [])
    (hm : (matchPattern text p).matched = true) :
    matchPattern text p ∈ search patterns text := by
  simp only [search, if_neg ht, List.mem_filter, List.mem_map]
  exact ⟨⟨p, hmem, rfl⟩, hm⟩

/-- If `needle` occurs as a prefix of some suffix of `hay`, then the
find-model returns an index. -/
theorem findSub_isSome_of_sub (hay needle : List Char) (i : Nat)
    (h : isPrefixL needle (hay.drop i) = true) : (findSub hay needle).isSome = true := by
  induction hay generalizing i with
  | nil =>
    have hn : isPrefixL needle [] = true := by simpa using h
    simp [findSub, hn]
  | cons a t ih =>
    by_cases hp : isPrefixL needle (a :: t) = true
    · simp [findSub, hp]
    · cases i with
      | zero => exact absurd (by simpa using h) hp
      | succ j =>
        have hrec := ih j (by simpa using h)
        simp only [findSub, if_neg hp]
        simpa using hrec

/-- Python's `find("")` is 0: the empty needle is found at offset 0. -/
theorem findSub_nil_needle (hay : List Char) : findSub hay [] = some 0 := by
  cases hay with
  | nil => rfl
  | cons a t => rfl

/-- C9: search of the empty text returns the empty list for every pattern
configuration; the early `if not text: return []` fires before any pattern
is consulted. -/
theorem search_empty_text : ∀ patterns : List SearchPattern, search patterns [] = [] := by
  intro patterns
  simp [search]

/-- C6: a regex whose expression fails to compile is still registered
(`add_regex` appends it without failing) and is inert: for every input
text, `search` on the extended pattern list returns exactly what it
returned without the pattern, so no match is ever reported for it. -/
theorem invalid_regex_inert (re_compile : PyReCompile) (patterns : List SearchPattern)
    (expr : List Char) (cs : Bool) (hfail : re_compile expr cs = none) :
    add_regex re_compile patterns expr cs
        = patterns ++ [mkSearchPattern re_compile expr MatchType.REGEX cs] ∧
      ∀ text, search (add_regex re_compile patterns expr cs) text = search patterns text := by
  refine ⟨rfl, fun text => ?_⟩
  by_cases ht : text = []
  · simp [search, ht]
  · simp only [search, if_neg ht, add_regex, add_pattern, List.map_append,
      List.filter_append]
    have hinert : matchPattern text (mkSearchPattern re_compile expr MatchType.REGEX cs)
        = { matched := false, pattern := expr, match_type := MatchType.REGEX,
            matched_text := none, position := none } := by
      simp [matchPattern, mkSearchPattern, hfail]
    simp [hinert]

/-- Witness for C6 at a concrete invalid expression. -/
theorem invalid_regex_inert_witness :
    compileNone ['('] false = none ∧
      search (add_regex compileNone [] ['('] false) ['a'] = search [] ['a'] :=
  ⟨rfl, (invalid_regex_inert compileNone [] ['('] false rfl).2 ['a']⟩

/-- C10: a registered `CONTAINS` pattern with empty pattern text matches
every non-empty input: `find` of the empty needle is 0, so the result has
matched text `""` and span `(0, 0)`. -/
theorem empty_contains_pattern_matches (patterns : List SearchPattern)
    (p : SearchPattern) (text : List Char)
    (hmem : p ∈ patterns) (hp : p.pattern = [])
    (hmt : p.match_type = MatchType.CONTAINS) (ht : text ≠ []) :
    ({ matched := true, pattern := [], match_type := MatchType.CONTAINS,
       matched_text := some [], position := some (0, 0) } : MatchResult)
      ∈ search patterns text := by
  have hmp : matchPattern text p
      = { matched := true, pattern := [], match_type := MatchType.CONTAINS,
          matched_text := some [], position := some (0, 0) } := by
    cases hcs : p.case_sensitive <;>
      simp [matchPattern, hmt, hp, hcs, pyLower, findSub_nil_needle]
  rw [← hmp]
  exact mem_search_of_matched hmem ht (by rw [hmp])

/-- Witness for C10: the empty keyword registered as a Contains pattern
matches the one-character text "a" with span (0,0). -/
theorem empty_contains_pattern_matches_witness :
    ({ matched := true, pattern := [], match_type := MatchType.CONTAINS,
       matched_text := some [], position := some (0, 0) } : MatchResult)
      ∈ search [mkSearchPattern compileNone [] MatchType.CONTAINS false] ['a'] :=
  empty_contains_pattern_matches
    [mkSearchPattern compileNone [] MatchType.CONTAINS false]
    (mkSearchPattern compileNone [] MatchType.CONTAINS false)
    ['a'] (by simp) rfl rfl (by simp)

/-- C3 counterexample: with the empty string registered as a Contains
pattern (caseSensitive false) and the empty text, the case-folded text
does contain the case-folded pattern (at offset 0), yet `search` returns
the empty list, so no result for the pattern is included — the claim as
stated fails at T = "". -/
theorem contains_search_empty_text_cex :
    isPrefixL (pyLower (mkSearchPattern compileNone [] MatchType.CONTAINS false).pattern)
        ((pyLower []).drop 0) = true ∧
      (mkSearchPattern compileNone [] MatchType.CONTAINS false).case_sensitive = false ∧
      search [mkSearchPattern compileNone [] MatchType.CONTAINS false] [] = [] := by
  exact ⟨rfl, rfl, rfl⟩

/-- C3 (amended to non-empty text): for a registered Contains pattern with
caseSensitive false and non-empty text whose case-folded form contains the
case-folded pattern, `search` includes a result for the pattern whose
matched text is the slice of the original text at the found offset, of the
pattern's length (original casing preserved). -/
theorem contains_case_insensitive_preserves_case
    (patterns : List SearchPattern) (p : SearchPattern) (text : List Char) (i : Nat)
    (hmem : p ∈ patterns) (hmt : p.match_type = MatchType.CONTAINS)
    (hcs : p.case_sensitive = false) (ht : text ≠ [])
    (hsub : isPrefixL (pyLower p.pattern) ((pyLower text).drop i) = true) :
    ∃ idx, findSub (pyLower text) (pyLower p.pattern) = some idx ∧
      ({ matched := true, pattern := p.pattern, match_type := MatchType.CONTAINS,
         matched_text := some ((text.drop idx).take p.pattern.length),
         position := some (idx, idx + p.pattern.length) } : MatchResult)
        ∈ search patterns text := by
  obtain ⟨idx, hidx⟩ :=
    Option.isSome_iff_exists.mp (findSub_isSome_of_sub (pyLower text) (pyLower p.pattern) i hsub)
  refine ⟨idx, hidx, ?_⟩
  have hmp : matchPattern text p
      = { matched := true, pattern := p.pattern, match_type := MatchType.CONTAINS,
          matched_text := some ((text.drop idx).take p.pattern.length),
          position := some (idx, idx + p.pattern.length) } := by
    simp [matchPattern, hmt, hcs, hidx]
  rw [← hmp]
  exact mem_search_of_matched hmem ht (by rw [hmp])

/-- Witness for the amended C3: pattern "ab", text "xAB", offset 1. -/
theorem contains_case_insensitive_preserves_case_witness :
    ∃ idx, findSub (pyLower ['x', 'A', 'B']) (pyLower ['a', 'b']) = some idx ∧
      ({ matched := true, pattern := ['a', 'b'], match_type := MatchType.CONTAINS,
         matched_text := some (((['x', 'A', 'B'] : List Char).drop idx).take 2),
         position := some (idx, idx + 2) } : MatchResult)
        ∈ search [mkSearchPattern compileNone ['a', 'b'] MatchType.CONTAINS false]
            ['x', 'A', 'B'] :=
  contains_case_insensitive_preserves_case
    [mkSearchPattern compileNone ['a', 'b'] MatchType.CONTAINS false]
    (mkSearchPattern compileNone ['a', 'b'] MatchType.CONTAINS false)
    ['x', 'A', 'B'] 1 (by simp) rfl rfl (by simp) (by decide)

/-! ## Schedule gate (`scheduler.py`, `ScheduleManager.is_within_schedule`) -/

/-- `ScheduleType` enum from `scheduler.py`. -/
inductive ScheduleType where
  | DAILY
  | WEEKLY
  | INTERVAL
  | CRON
deriving DecidableEq, Repr

/-- Time of day, modelled as an ordered scalar (e.g. minutes since
midnight); `is_within_schedule` uses only the order on `datetime.time`. -/
abbrev TimeOfDay := Nat

/-- `Schedule` dataclass from `scheduler.py`.  `days_of_week` is `None` or
a list (0 = Monday .. 6 = Sunday); optional times are `None` or a time. -/
structure Schedule where
  name : String
  schedule_type : ScheduleType
  start_time : Option TimeOfDay
  end_time : Option TimeOfDay
  days_of_week : Option (List Nat)
  interval_minutes : Nat
  cron_expression : String
  is_active : Bool
deriving DecidableEq, Repr

/-- The day check of the loop body: `if schedule.days_of_week and today
not in schedule.days_of_week: continue` — the schedule is skipped iff
`days_of_week` is truthy (not `None`, non-empty) and `today` is absent. -/
def dayAllows (days : Option (List Nat)) (today : Nat) : Bool :=
  match days with
  | none => true
  | some l => l.isEmpty || l.contains today

/-- The time check of the loop body: with both bounds present the test is
`start_time <= now <= end_time`; with only a start it is `now >=
start_time`; any other shape never fires (`datetime.time` values are
always truthy). -/
def timeAllows (st en : Option TimeOfDay) (now : TimeOfDay) : Bool :=
  match st, en with
  | some s, some e => decide (s ≤ now) && decide (now ≤ e)
  | some s, none => decide (s ≤ now)
  | _, _ => false

/-- One schedule lets the loop `return True` iff it is active, its day set
allows today, and its time bounds allow `now`. -/
def windowCovers (sched : Schedule) (today : Nat) (now : TimeOfDay) : Bool :=
  dayAllows sched.days_of_week today && timeAllows sched.start_time sched.end_time now

/-- `ScheduleManager.is_within_schedule`: scan all schedules, returning
true on the first active covering window; after the loop the default is
`len(self.schedules) == 0`. -/
def is_within_schedule (schedules : List Schedule) (today : Nat) (now : TimeOfDay) : Bool :=
  schedules.any (fun s => s.is_active && windowCovers s today now) || schedules.isEmpty

/-- C7: `is_within_schedule` is true iff some active window covers `now`
on `today`, or the window list is empty (default-on policy).  In
particular a non-empty list none of whose active windows covers `now`
yields false. -/
theorem is_within_schedule_spec (schedules : List Schedule) (today : Nat) (now : TimeOfDay) :
    is_within_schedule schedules today now = true ↔
      ((∃ s ∈ schedules, s.is_active = true ∧ windowCovers s today now = true) ∨
        schedules = []) := by
  simp [is_within_schedule, List.any_eq_true, List.isEmpty_iff, Bool.and_eq_true,
    and_assoc]

/-! ## Supervisor (`scheduler.py`, `AutoRestartManager.run_with_restart`) -/

/-- Observable events of `run_with_restart`: the start of the k-th
invocation of the supplied operation, a backoff sleep of a given length,
and the fatal stop after exceeding the maximum number of attempts. -/
inductive RestartEvent where
  | invoke (k : Nat)
  | sleep (delay : Nat)
  | fatalStop
deriving DecidableEq, Repr

/-- `AutoRestartManager.run_with_restart`, as the trace of events it
produces.  `op k` tells whether the k-th invocation of the supplied
coroutine returns normally (`true`) or raises (`false`); `retries` is
`self._current_retries` at the loop head and `fuel` bounds the number of
loop iterations examined (the Python loop may run unboundedly).  The
multiplier is a natural number (the claims use 2; the default 2.0 is
integral).  Faithful to the source: the loop guard is
`retries < max_retries` (with `self._running` true throughout, since the
operation never calls `stop`), and the body first sets
`self._current_retries = 0`, then awaits the operation; on an exception it
increments the counter, computes `delay = retry_delay *
backoff_multiplier ** (retries - 1)`, and either sleeps and loops or logs
the fatal stop and breaks. -/
def run_with_restart (max_retries retry_delay backoff_multiplier : Nat)
    (op : Nat → Bool) : Nat → Nat → Nat → List RestartEvent
  | 0, _, _ => []
  | fuel + 1, retries, k =>
    if retries < max_retries then
      let retries := 0
      if op k then
        RestartEvent.invoke k ::
          run_with_restart max_retries retry_delay backoff_multiplier op fuel retries (k + 1)
      else
        let retries := retries + 1
        let delay := retry_delay * backoff_multiplier ^ (retries - 1)
        if retries < max_retries then
          RestartEvent.invoke k :: RestartEvent.sleep delay ::
            run_with_restart max_retries retry_delay backoff_multiplier op fuel retries (k + 1)
        else
          [RestartEvent.invoke k, RestartEvent.fatalStop]
    else []

/-- The sleeps of a trace, in order. -/
def sleepDelays (trace : List RestartEvent) : List Nat :=
  trace.filterMap fun e =>
    match e with
    | RestartEvent.sleep d => some d
    | _ => none

/-- C1 (code bug): with maxAttempts 3, baseDelay 1, multiplier 2 and an
operation failing on every invocation, the first four loop iterations
produce waits 1, 1, 1, 1 — not 1, 2, 4 — because `_current_retries` is
reset to zero at the top of every iteration, before the operation runs,
not only after a successful run.  A 4th attempt (invoke 3) is started and
the fatal stop never occurs within these iterations. -/
theorem run_with_restart_always_fail_trace :
    run_with_restart 3 1 2 (fun _ => false) 4 0 0 =
        [RestartEvent.invoke 0, RestartEvent.sleep 1,
         RestartEvent.invoke 1, RestartEvent.sleep 1,
         RestartEvent.invoke 2, RestartEvent.sleep 1,
         RestartEvent.invoke 3, RestartEvent.sleep 1] ∧
      sleepDelays (run_with_restart 3 1 2 (fun _ => false) 4 0 0) ≠ [1, 2, 4] ∧
      RestartEvent.invoke 3 ∈ run_with_restart 3 1 2 (fun _ => false) 4 0 0 ∧
      RestartEvent.fatalStop ∉ run_with_restart 3 1 2 (fun _ => false) 4 0 0 := by
  refine ⟨rfl, by decide, by decide, by decide⟩

/-! ## Store (`database.py`), fan-out (`notifications.py`) and detection
pipeline (`monitor.py`) -/

/-- The chat attached to an incoming message (`message.chat`). -/
structure PyChat where
  id : Int
  username : Option String
  title : Option String
deriving DecidableEq, Repr

/-- An incoming platform message (the fields the pipeline reads). -/
structure PyMessage where
  chat : PyChat
  id : Nat
  text : Option (List Char)
  caption : Option (List Char)
deriving DecidableEq, Repr

/-- Python string truthiness: non-empty. -/
def pyTruthy (s : String) : Bool := !(s == "")

/-- Python `a or b` for an optional string `a` (`None` and `""` falsy). -/
def pyStrOr (a : Option String) (b : String) : String :=
  match a with
  | some s => if s = "" then b else s
  | none => b

/-- Python `a or b` for an optional text (`None` and `""` falsy). -/
def pyTextOr (a : Option (List Char)) (b : List Char) : List Char :=
  match a with
  | some t => if t = [] then b else t
  | none => b

/-- A row of the `detected_messages` table. -/
structure DetectedRow where
  rowId : Nat
  message_id : Nat
  channel_id : String
  channel_username : String
  keyword_matched : List Char
  message_text : List Char
  message_link : Option String
  notification_sent : Bool
deriving DecidableEq, Repr

/-- The store's state: the `detected_messages` rows and the next
AUTOINCREMENT row id (SQLite row ids start at 1). -/
structure DBState where
  rows : List DetectedRow
  nextRowId : Nat
deriving DecidableEq, Repr

/-- The `UNIQUE(message_id, channel_id, keyword_matched)` key test. -/
def tripleMatches (r : DetectedRow) (mid : Nat) (cid : String) (kw : List Char) : Bool :=
  decide (r.message_id = mid) && decide (r.channel_id = cid) &&
    decide (r.keyword_matched = kw)

/-- `Database.is_message_detected`: does a row with the triple exist. -/
def is_message_detected (db : DBState) (mid : Nat) (cid : String) (kw : List Char) : Bool :=
  db.rows.any (fun r => tripleMatches r mid cid kw)

/-- `Database.add_detected_message`: `INSERT OR IGNORE` against the unique
triple, returning the new state and the row id (`0` models a falsy
`lastrowid` when nothing was inserted; `notification_sent` defaults to
false). -/
def add_detected_message (db : DBState) (mid : Nat) (cid cuser : String)
    (kw mtext : List Char) (mlink : Option String) : DBState × Nat :=
  if is_message_detected db mid cid kw then (db, 0)
  else
    ({ rows := db.rows ++
         [{ rowId := db.nextRowId, message_id := mid, channel_id := cid,
            channel_username := cuser, keyword_matched := kw, message_text := mtext,
            message_link := mlink, notification_sent := false }],
       nextRowId := db.nextRowId + 1 },
     db.nextRowId)

/-- `Database.mark_notification_sent`: set the flag on the row with the
given id. -/
def mark_notification_sent (db : DBState) (rid : Nat) : DBState :=
  { db with
    rows := db.rows.map fun r =>
      if r.rowId = rid then { r with notification_sent := true } else r }

/-- Number of rows with the given unique triple. -/
def countTriple (db : DBState) (mid : Nat) (cid : String) (kw : List Char) : Nat :=
  db.rows.countP (fun r => tripleMatches r mid cid kw)

/-- A configured notification provider, reduced to its observable
behaviour: its name and whether its `send` succeeds.  Every provider in
the repository catches its own errors (exceptions, non-2xx webhook
status, SMTP failure) inside `send` and resolves to a boolean, so a
failure is a `false` outcome, never a propagated exception. -/
structure Provider where
  name : String
  sendOutcome : Bool
deriving DecidableEq, Repr

/-- `NotificationManager.notify` with `_send_with_provider`: dispatches to
every configured provider (concurrently via `asyncio.gather`, joined
before returning) and always completes; modelled as the per-provider
`(name, outcome)` send log produced by one call. -/
def notifyAll (providers : List Provider) : List (String × Bool) :=
  providers.map fun p => (p.name, p.sendOutcome)

/-- The pipeline state threaded through `_handle_match` /
`_process_message`: the store, the number of fan-out invocations
(`notify_keyword_found` calls), and the cumulative per-provider send
log. -/
structure MonState where
  db : DBState
  notifyCalls : Nat
  sendLog : List (String × Bool)
deriving DecidableEq, Repr

/-- `ChannelMonitor._handle_match`: resolve channel id/username, dedup
against the store, persist the detection (text truncated to 2000), build
the message link when a username or title is available, fan out, and mark
`notification_sent` when the returned row id is truthy. -/
def handle_match (providers : List Provider) (s : MonState) (msg : PyMessage)
    (keyword text : List Char) : MonState :=
  let channel_id := toString msg.chat.id
  let channel_username := pyStrOr msg.chat.username (pyStrOr msg.chat.title "")
  if is_message_detected s.db msg.id channel_id keyword then s
  else
    let message_link :=
      if pyTruthy channel_username then
        some ("https://t.me/" ++ channel_username ++ "/" ++ toString msg.id)
      else none
    let ins := add_detected_message s.db msg.id channel_id channel_username keyword
        (text.take 2000) message_link
    let s2 : MonState :=
      { db := ins.1, notifyCalls := s.notifyCalls + 1,
        sendLog := s.sendLog ++ notifyAll providers }
    if ins.2 ≠ 0 then { s2 with db := mark_notification_sent s2.db ins.2 } else s2

/-- `ChannelMonitor._is_monitored_channel`: exact id, exact username, or
`@`-prefixed username membership in the cached watched set. -/
def is_monitored_channel (monitored_channels : List String)
    (channel_id username : String) : Bool :=
  if monitored_channels.contains channel_id then true
  else if pyTruthy username && monitored_channels.contains username then true
  else if pyTruthy username && monitored_channels.contains ("@" ++ username) then true
  else false

/-- `ChannelMonitor._process_message`: drop unless the channel is watched;
drop on empty text (text, else caption, else empty); search; drop when no
match; otherwise handle each match in order. -/
def process_message (providers : List Provider) (monitored_channels : List String)
    (patterns : List SearchPattern) (s : MonState) (msg : PyMessage) : MonState :=
  let channel_id := toString msg.chat.id
  let channel_username := pyStrOr msg.chat.username ""
  if !(is_monitored_channel monitored_channels channel_id channel_username) then s
  else
    let text := pyTextOr msg.text (pyTextOr msg.caption [])
    if text = [] then s
    else
      let found := search patterns text
      if found.isEmpty then s
      else found.foldl (fun acc m => handle_match providers acc msg m.pattern text) s

/-- Marking a notification leaves every row's unique triple unchanged. -/
theorem tripleMatches_markRow (r : DetectedRow) (rid mid : Nat) (cid : String)
    (kw : List Char) :
    tripleMatches (if r.rowId = rid then { r with notification_sent := true } else r)
        mid cid kw
      = tripleMatches r mid cid kw := by
  split <;> rfl

/-- `mark_notification_sent` does not change which triples are present. -/
theorem is_message_detected_mark (db : DBState) (rid mid : Nat) (cid : String)
    (kw : List Char) :
    is_message_detected (mark_notification_sent db rid) mid cid kw
      = is_message_detected db mid cid kw := by
  unfold is_message_detected mark_notification_sent
  rw [List.any_map]
  congr 1
  funext r
  exact tripleMatches_markRow r rid mid cid kw

/-- `mark_notification_sent` does not change triple multiplicities. -/
theorem countTriple_mark (db : DBState) (rid mid : Nat) (cid : String) (kw : List Char) :
    countTriple (mark_notification_sent db rid) mid cid kw = countTriple db mid cid kw := by
  unfold countTriple mark_notification_sent
  rw [List.countP_map]
  congr 1
  funext r
  exact tripleMatches_markRow r rid mid cid kw

/-- The row `_handle_match` inserts for a fresh detection. -/
def newRowOf (s : MonState) (msg : PyMessage) (keyword text : List Char) : DetectedRow :=
  { rowId := s.db.nextRowId, message_id := msg.id, channel_id := toString msg.chat.id,
    channel_username := pyStrOr msg.chat.username (pyStrOr msg.chat.title ""),
    keyword_matched := keyword, message_text := text.take 2000,
    message_link :=
      if pyTruthy (pyStrOr msg.chat.username (pyStrOr msg.chat.title "")) then
        some ("https://t.me/" ++ pyStrOr msg.chat.username (pyStrOr msg.chat.title "")
          ++ "/" ++ toString msg.id)
      else none,
    notification_sent := false }

/-- On an already-detected triple `_handle_match` is the identity. -/
theorem handle_match_detected (providers : List Provider) (s : MonState) (msg : PyMessage)
    (keyword text : List Char)
    (h : is_message_detected s.db msg.id (toString msg.chat.id) keyword = true) :
    handle_match providers s msg keyword text = s := by
  simp [handle_match, h]

/-- Normal form of `_handle_match` on a fresh triple: the row is inserted,
the fan-out runs once, and the row is marked sent when the row id is
truthy. -/
theorem handle_match_new (providers : List Provider) (s : MonState) (msg : PyMessage)
    (keyword text : List Char)
    (hnew : is_message_detected s.db msg.id (toString msg.chat.id) keyword = false) :
    handle_match providers s msg keyword text =
      if s.db.nextRowId ≠ 0 then
        { db := mark_notification_sent
            ⟨s.db.rows ++ [newRowOf s msg keyword text], s.db.nextRowId + 1⟩
            s.db.nextRowId,
          notifyCalls := s.notifyCalls + 1,
          sendLog := s.sendLog ++ notifyAll providers }
      else
        { db := ⟨s.db.rows ++ [newRowOf s msg keyword text], s.db.nextRowId + 1⟩,
          notifyCalls := s.notifyCalls + 1,
          sendLog := s.sendLog ++ notifyAll providers } := by
  simp [handle_match, add_detected_message, hnew, newRowOf]

/-- The freshly inserted row carries the detection's unique triple. -/
theorem tripleMatches_newRowOf (s : MonState) (msg : PyMessage) (keyword text : List Char) :
    tripleMatches (newRowOf s msg keyword text) msg.id (toString msg.chat.id) keyword
      = true := by
  simp [tripleMatches, newRowOf]

/-- C2: running `_handle_match` on a triple not yet in the store persists
exactly one row for that triple and invokes the fan-out exactly once, and
running it again with the identical (messageId, channelId, keyword) is a
no-op: the state (store, fan-out log) is unchanged by the second run. -/
theorem handle_match_idempotent (providers : List Provider) (s : MonState)
    (msg : PyMessage) (keyword text : List Char)
    (hnew : is_message_detected s.db msg.id (toString msg.chat.id) keyword = false) :
    handle_match providers (handle_match providers s msg keyword text) msg keyword text
        = handle_match providers s msg keyword text ∧
      countTriple (handle_match providers s msg keyword text).db msg.id
          (toString msg.chat.id) keyword = 1 ∧
      (handle_match providers s msg keyword text).notifyCalls = s.notifyCalls + 1 := by
  have h0 : ∀ r ∈ s.db.rows,
      ¬ tripleMatches r msg.id (toString msg.chat.id) keyword = true := by
    simpa [is_message_detected, List.any_eq_false] using hnew
  have hcount0 : s.db.rows.countP
      (fun r => tripleMatches r msg.id (toString msg.chat.id) keyword) = 0 :=
    List.countP_eq_zero.mpr h0
  have hdet1 : is_message_detected (handle_match providers s msg keyword text).db msg.id
      (toString msg.chat.id) keyword = true := by
    rw [handle_match_new providers s msg keyword text hnew]
    split
    · show is_message_detected (mark_notification_sent
          ⟨s.db.rows ++ [newRowOf s msg keyword text], s.db.nextRowId + 1⟩
          s.db.nextRowId) msg.id (toString msg.chat.id) keyword = true
      rw [is_message_detected_mark]
      simp [is_message_detected, List.any_append, tripleMatches_newRowOf]
    · show is_message_detected
          (⟨s.db.rows ++ [newRowOf s msg keyword text], s.db.nextRowId + 1⟩ : DBState)
          msg.id (toString msg.chat.id) keyword = true
      simp [is_message_detected, List.any_append, tripleMatches_newRowOf]
  refine ⟨handle_match_detected providers _ msg keyword text hdet1, ?_, ?_⟩
  · rw [handle_match_new providers s msg keyword text hnew]
    split
    · show countTriple (mark_notification_sent
          ⟨s.db.rows ++ [newRowOf s msg keyword text], s.db.nextRowId + 1⟩
          s.db.nextRowId) msg.id (toString msg.chat.id) keyword = 1
      rw [countTriple_mark]
      simp [countTriple, List.countP_append, hcount0, List.countP_cons,
        tripleMatches_newRowOf]
    · show countTriple
          (⟨s.db.rows ++ [newRowOf s msg keyword text], s.db.nextRowId + 1⟩ : DBState)
          msg.id (toString msg.chat.id) keyword = 1
      simp [countTriple, List.countP_append, hcount0, List.countP_cons,
        tripleMatches_newRowOf]
  · rw [handle_match_new providers s msg keyword text hnew]
    split <;> rfl

/-- Sample pipeline state: empty store with first row id 1. -/
def sampleState : MonState := { db := { rows := [], nextRowId := 1 }, notifyCalls := 0, sendLog := [] }

/-- Sample inbound message. -/
def sampleMsg : PyMessage :=
  { chat := { id := 123, username := some "shop", title := none },
    id := 7, text := some ['h', 'i'], caption := none }

/-- Witness for C2 on a concrete fresh store and message. -/
theorem handle_match_idempotent_witness :
    handle_match [] (handle_match [] sampleState sampleMsg ['h'] ['h', 'i'])
          sampleMsg ['h'] ['h', 'i']
        = handle_match [] sampleState sampleMsg ['h'] ['h', 'i'] ∧
      countTriple (handle_match [] sampleState sampleMsg ['h'] ['h', 'i']).db sampleMsg.id
          (toString sampleMsg.chat.id) ['h'] = 1 ∧
      (handle_match [] sampleState sampleMsg ['h'] ['h', 'i']).notifyCalls
        = sampleState.notifyCalls + 1 :=
  handle_match_idempotent [] sampleState sampleMsg ['h'] ['h', 'i'] rfl

/-- C5: for a fresh detection handled with at least one failing and one
succeeding provider configured, `_handle_match` completes: every
provider's send is performed and logged with its own outcome (the failing
provider's failure is recorded without affecting the succeeding sibling),
and the persisted detection row has `notification_sent = true` regardless
of the providers' outcomes. -/
theorem notify_partial_failure (providers : List Provider) (s : MonState)
    (msg : PyMessage) (keyword text : List Char) (pf ps : Provider)
    (hpf : pf ∈ providers) (hps : ps ∈ providers)
    (hfail : pf.sendOutcome = false) (hsucc : ps.sendOutcome = true)
    (hnew : is_message_detected s.db msg.id (toString msg.chat.id) keyword = false)
    (hrid : s.db.nextRowId ≠ 0) :
    (handle_match providers s msg keyword text).sendLog
        = s.sendLog ++ notifyAll providers ∧
      (pf.name, false) ∈ (handle_match providers s msg keyword text).sendLog ∧
      (ps.name, true) ∈ (handle_match providers s msg keyword text).sendLog ∧
      ∃ r ∈ (handle_match providers s msg keyword text).db.rows,
        r.message_id = msg.id ∧ r.channel_id = toString msg.chat.id ∧
          r.keyword_matched = keyword ∧ r.notification_sent = true := by
  rw [handle_match_new providers s msg keyword text hnew, if_pos hrid]
  refine ⟨rfl, ?_, ?_, ?_⟩
  · exact List.mem_append_right _ (List.mem_map.mpr ⟨pf, hpf, by rw [hfail]⟩)
  · exact List.mem_append_right _ (List.mem_map.mpr ⟨ps, hps, by rw [hsucc]⟩)
  · refine ⟨{ newRowOf s msg keyword text with notification_sent := true }, ?_, rfl, rfl, rfl, rfl⟩
    show _ ∈ (mark_notification_sent
        ⟨s.db.rows ++ [newRowOf s msg keyword text], s.db.nextRowId + 1⟩
        s.db.nextRowId).rows
    unfold mark_notification_sent
    refine List.mem_map.mpr ⟨newRowOf s msg keyword text, ?_, ?_⟩
    · exact List.mem_append_right _ (List.mem_singleton.mpr rfl)
    · simp [newRowOf]

/-- Witness for C5: one failing webhook-style provider and one succeeding
chat provider on a concrete fresh detection. -/
theorem notify_partial_failure_witness :
    (handle_match [⟨"discord", false⟩, ⟨"telegram", true⟩] sampleState sampleMsg
          ['h'] ['h', 'i']).sendLog
        = sampleState.sendLog ++ notifyAll [⟨"discord", false⟩, ⟨"telegram", true⟩] ∧
      ("discord", false) ∈ (handle_match [⟨"discord", false⟩, ⟨"telegram", true⟩]
          sampleState sampleMsg ['h'] ['h', 'i']).sendLog ∧
      ("telegram", true) ∈ (handle_match [⟨"discord", false⟩, ⟨"telegram", true⟩]
          sampleState sampleMsg ['h'] ['h', 'i']).sendLog ∧
      ∃ r ∈ (handle_match [⟨"discord", false⟩, ⟨"telegram", true⟩]
          sampleState sampleMsg ['h'] ['h', 'i']).db.rows,
        r.message_id = sampleMsg.id ∧ r.channel_id = toString sampleMsg.chat.id ∧
          r.keyword_matched = ['h'] ∧ r.notification_sent = true :=
  notify_partial_failure [⟨"discord", false⟩, ⟨"telegram", true⟩] sampleState sampleMsg
    ['h'] ['h', 'i'] ⟨"discord", false⟩ ⟨"telegram", true⟩
    (by simp) (by simp) rfl rfl rfl (by simp [sampleState])

/-- C8: the watched-channel test for channelId "100" and username "foo"
holds exactly when the watched set contains "100", "foo", or "@foo"; and
whenever the test rejects a message's channel, `_process_message` drops
the message with no further work (the state is returned unchanged). -/
theorem monitored_channel_spec (chans : List String) :
    is_monitored_channel chans "100" "foo"
        = (chans.contains "100" || chans.contains "foo" || chans.contains "@foo") ∧
      ∀ (providers : List Provider) (patterns : List SearchPattern) (s : MonState)
        (msg : PyMessage),
        is_monitored_channel chans (toString msg.chat.id) (pyStrOr msg.chat.username "")
            = false →
          process_message providers chans patterns s msg = s := by
  constructor
  · by_cases h1 : "100" ∈ chans <;> by_cases h2 : "foo" ∈ chans <;>
      by_cases h3 : "@foo" ∈ chans <;>
        simp [is_monitored_channel, pyTruthy, h1, h2, h3]
  · intro providers patterns s msg h
    simp [process_message, h]

/-- Witness for C8 with watched set ["@foo"] and a concrete unmonitored
message. -/
theorem monitored_channel_spec_witness :
    (is_monitored_channel ["@foo"] "100" "foo"
        = (["@foo"].contains "100" || ["@foo"].contains "foo" || ["@foo"].contains "@foo")) ∧
      process_message [] ["@foo"] [] sampleState
          ⟨⟨5, none, none⟩, 9, some ['h', 'i'], none⟩
        = sampleState :=
  ⟨(monitored_channel_spec ["@foo"]).1,
   (monitored_channel_spec ["@foo"]).2 [] [] sampleState
     ⟨⟨5, none, none⟩, 9, some ['h', 'i'], none⟩ rfl⟩

/-! ## Configuration reload (`monitor.py`, `reload_config` /
`_load_keywords` / `_load_channels`)

`reload_config` runs on the asyncio event loop that also runs the message
handlers, so code between `await` points executes atomically with respect
to readers.  Its suspension points are `await db.get_keywords()` (before
any mutation) and `await db.get_channels()` (after the pattern list has
been cleared and repopulated in one non-suspending segment, but before
the channel set is touched).  The channel set's own clear-and-repopulate
is likewise one non-suspending segment.  `reloadObservables` lists the
states a concurrently scheduled reader can observe during one reload, in
order. -/

/-- `ChannelMonitor._load_keywords`: clear the engine's pattern list and
re-add each active keyword row, as `add_regex` when flagged, otherwise as
`add_keyword` (both with default case-insensitivity). -/
def load_keywords (re_compile : PyReCompile) (rows : List (List Char × Bool)) :
    List SearchPattern :=
  rows.foldl
    (fun patterns kw =>
      if kw.2 then add_regex re_compile patterns kw.1 false
      else add_keyword re_compile patterns kw.1 false)
    []

/-- Set insertion for the cached watched-channel membership set. -/
def setAdd (l : List String) (x : String) : List String :=
  if l.contains x then l else l ++ [x]

/-- `ChannelMonitor._load_channels`: clear the membership set and, per
active channel row `(username, channel_id)`, add the username when truthy
and always add the channel id. -/
def load_channels (rows : List (Option String × String)) : List String :=
  rows.foldl
    (fun chans ch =>
      let chans :=
        match ch.1 with
        | some u => if u = "" then chans else setAdd chans u
        | none => chans
      setAdd chans ch.2)
    []

/-- What a reader can observe of the shared configuration: the pattern
list (by pattern text) and the watched-channel membership set. -/
structure MonitorSnapshot where
  patternTexts : List (List Char)
  channels : List String
deriving DecidableEq, Repr

/-- Observable view of a pattern list and channel set. -/
def snapshotOf (patterns : List SearchPattern) (channels : List String) : MonitorSnapshot :=
  { patternTexts := patterns.map (·.pattern), channels := channels }

/-- The sequence of configuration states observable by a reader scheduled
at each suspension point of `reload_config`: at `await db.get_keywords()`
(nothing replaced yet), at `await db.get_channels()` (patterns replaced,
channels not yet), and after completion. -/
def reloadObservables (re_compile : PyReCompile) (oldPatterns : List SearchPattern)
    (oldChannels : List String) (kwRows : List (List Char × Bool))
    (chRows : List (Option String × String)) : List MonitorSnapshot :=
  [snapshotOf oldPatterns oldChannels,
   snapshotOf (load_keywords re_compile kwRows) oldChannels,
   snapshotOf (load_keywords re_compile kwRows) (load_channels chRows)]

/-- C4 counterexample: during a concrete reload (old patterns ["a"], old
channels ["1"], new keyword rows ["b"], new channel rows ["2"]), a reader
scheduled at the `await db.get_channels()` suspension point observes the
new pattern list together with the old channel set — a state equal to
neither the complete old snapshot nor the complete new snapshot, so the
two-structure replacement is not atomic. -/
theorem reload_mixed_snapshot_cex :
    (⟨[['b']], ["1"]⟩ : MonitorSnapshot)
        ∈ reloadObservables compileNone
            [mkSearchPattern compileNone ['a'] MatchType.CONTAINS false] ["1"]
            [(['b'], false)] [(none, "2")] ∧
      (⟨[['b']], ["1"]⟩ : MonitorSnapshot)
          ≠ snapshotOf [mkSearchPattern compileNone ['a'] MatchType.CONTAINS false] ["1"] ∧
      (⟨[['b']], ["1"]⟩ : MonitorSnapshot)
          ≠ snapshotOf (load_keywords compileNone [(['b'], false)])
              (load_channels [(none, "2")]) := by
  refine ⟨?_, ?_, ?_⟩ <;> decide

/-- C4 (amended): each of the two structures is individually replaced
wholesale — at every suspension point a reader sees the pattern list
entirely old or entirely new, and the channel set entirely old or
entirely new, never a torn single structure — but the pair is not
replaced atomically (the mixed new-patterns/old-channels state of the
counterexample is observable between the two replacements). -/
theorem reload_per_structure_snapshot (re_compile : PyReCompile)
    (oldPatterns : List SearchPattern) (oldChannels : List String)
    (kwRows : List (List Char × Bool)) (chRows : List (Option String × String))
    (v : MonitorSnapshot)
    (hv : v ∈ reloadObservables re_compile oldPatterns oldChannels kwRows chRows) :
    (v.patternTexts = oldPatterns.map (·.pattern) ∨
        v.patternTexts = (load_keywords re_compile kwRows).map (·.pattern)) ∧
      (v.channels = oldChannels ∨ v.channels = load_channels chRows) := by
  simp only [reloadObservables, List.mem_cons, List.mem_singleton,
    List.not_mem_nil, or_false] at hv
  rcases hv with h | h | h <;> subst h <;> simp [snapshotOf]

/-- Witness for the amended C4 at the counterexample's concrete reload. -/
theorem reload_per_structure_snapshot_witness :
    ((⟨[['b']], ["1"]⟩ : MonitorSnapshot).patternTexts
          = ([mkSearchPattern compileNone ['a'] MatchType.CONTAINS false]).map (·.pattern) ∨
        (⟨[['b']], ["1"]⟩ : MonitorSnapshot).patternTexts
          = (load_keywords compileNone [(['b'], false)]).map (·.pattern)) ∧
      ((⟨[['b']], ["1"]⟩ : MonitorSnapshot).channels = ["1"] ∨
        (⟨[['b']], ["1"]⟩ : MonitorSnapshot).channels = load_channels [(none, "2")]) :=
  reload_per_structure_snapshot compileNone
    [mkSearchPattern compileNone ['a'] MatchType.CONTAINS false] ["1"]
    [(['b'], false)] [(none, "2")] ⟨[['b']], ["1"]⟩ (by decide)
